import Mathlib

/-!
Verification development for the usb-printer-watcher repository
(src/watch_printer_and_restart.py).

The program follows the kernel log (dmesg), classifies each line by
substring-token matching, debounces accepted matches with a cooldown
gate, and remediates by restarting a print-spooler service through a
TrueNAS API tier with a Docker-runtime fallback tier.

Embedding conventions:
* Python strings are modelled as lists of characters (`Str`); Python
  substring containment (`needle in haystack`) is `List.IsInfix`.
* Wall-clock times and the cooldown are modelled as rationals.
* External effects (HTTP calls, subprocess invocations) are modelled by
  explicit environment records giving each call site its outcome, and
  functions additionally return a trace of the external commands they
  issue.  Python exceptions raised by those externals are the `none` /
  `false` branches of the environment fields: the source catches every
  one at its call site and converts it to a return value, so every
  embedded function is total.
-/

namespace UsbPrinterWatcher

/-- Python strings, modelled as lists of characters. -/
abbrev Str := List Char

/-- Python `needle in haystack` on strings: contiguous substring containment. -/
def substrB (needle haystack : Str) : Bool :=
  decide (needle <:+: haystack)

/-- Python `s.strip()`: drop leading and trailing whitespace characters. -/
def pyStrip (s : Str) : Str :=
  ((s.dropWhile Char.isWhitespace).reverse.dropWhile Char.isWhitespace).reverse

/-- Python `s.split(",")`: split on every comma, keeping empty parts. -/
def pySplitComma : Str → List Str
| [] => [[]]
| c :: rest =>
  let r := pySplitComma rest
  if c = ',' then [] :: r
  else
    match r with
    | [] => [[c]]
    | h :: t => (c :: h) :: t

/-- Source lines 19-25: the token list derived from the configured
delimited string — split on commas, strip each part, keep only parts
that are non-empty after stripping.  It is computed once at module load
and never mutated afterwards. -/
def USB_EVENT_MATCH_ANY_OF (configured : Str) : List Str :=
  ((pySplitComma configured).map pyStrip).filter (fun t => decide (t ≠ []))

/-- Source lines 209-218, `line_matches_printer_event`: true iff any
configured token occurs in the line (early-returning for-loop over the
token list). -/
def line_matches_printer_event (tokens : List Str) (line : Str) : Bool :=
  tokens.any (fun token => substrB token line)

/-- Source line 254, the debounce gate condition
`now - last_trigger_time > COOLDOWN_SECONDS` (the spec names this
contract `shouldTrigger`). -/
def shouldTrigger (now lastTrigger cooldownSeconds : ℚ) : Bool :=
  decide (now - lastTrigger > cooldownSeconds)

/-- Observable actions of one iteration of the follower loop body
(source lines 252-259). -/
inductive Action where
  | logMatch (line : Str)
  | remediate
  | updateLast (t : ℚ)
  | logCooldownSkip
deriving DecidableEq

/-- Source lines 244-259, the body of the `follow_dmesg` loop for one
raw line read at wall-clock time `now`: strip the line, skip it when
empty, classify it, gate it, and on acceptance log, remediate, then
store `now` as the new last-trigger time.  Returns the new stored
timestamp and the trace of actions in source order. -/
def processLine (tokens : List Str) (cooldown lastTrigger now : ℚ)
    (rawLine : Str) : ℚ × List Action :=
  let line := pyStrip rawLine
  if line = [] then (lastTrigger, [])
  else if line_matches_printer_event tokens line then
    if shouldTrigger now lastTrigger cooldown then
      (now, [Action.logMatch line, Action.remediate, Action.updateLast now])
    else (lastTrigger, [Action.logCooldownSkip])
  else (lastTrigger, [])

/-- Formalisation of the spec claim that the stored-timestamp update
happens before remediation: some `updateLast` action occurs strictly
before the first `remediate` action of the trace. -/
def updateBeforeRemediate (tr : List Action) : Bool :=
  (tr.takeWhile (fun a => decide (a ≠ Action.remediate))).any
    (fun a => match a with | Action.updateLast _ => true | _ => false)

/-- Environment of the TrueNAS API tier: configuration strings and the
outcomes of the two HTTP call sites.  `releases = none` models any
transport / auth / decoding exception of the GET (caught at source lines
82-84); `restartResponseOk = false` models any exception of the POST
(caught at source lines 103-105). -/
structure ApiEnv where
  baseUrl : Str
  apiKey : Str
  releases : Option (List Str)
  restartResponseOk : Bool

/-- Source lines 71-84, `truenas_app_exists`: false when the base URL or
API key is unconfigured, false on any request failure, otherwise true
iff some release name equals `app_name` exactly. -/
def truenas_app_exists (env : ApiEnv) (app_name : Str) : Bool :=
  if env.baseUrl = [] ∨ env.apiKey = [] then false
  else
    match env.releases with
    | none => false
    | some rs => decide (app_name ∈ rs)

/-- Source lines 87-105, `restart_via_truenas`: false when the base URL
or API key is unconfigured, otherwise the POST succeeds or fails as the
environment dictates (exceptions are caught and become false). -/
def restart_via_truenas (env : ApiEnv) (app_name : Str) : Bool :=
  if env.baseUrl = [] ∨ env.apiKey = [] then false
  else env.restartResponseOk

/-- External docker commands issued by the runtime tier. -/
inductive DockerCmd where
  | ps
  | restart (name : Str)
deriving DecidableEq

/-- Environment of the Docker runtime tier: whether the docker binary is
on PATH (`shutil.which`), the stdout lines of `docker ps` (`none` models
a raised subprocess error, caught at source lines 125-130), and the exit
status of `docker restart` per container name. -/
structure DockerEnv where
  dockerAvailable : Bool
  psOutput : Option (List Str)
  restartExitOk : Str → Bool

/-- Source line 132: strip each stdout line of `docker ps` and keep the
non-empty ones — the list of running container names. -/
def ps_names (rawLines : List Str) : List Str :=
  (rawLines.map pyStrip).filter (fun l => decide (l ≠ []))

/-- Source lines 132-154, the pure resolution logic of
`resolve_container_name` over the running-names list: empty list fails;
an exact match wins; otherwise a unique substring match is returned;
zero or several substring matches fail. -/
def resolve_container_name (names : List Str) (pattern : Str) : Option Str :=
  if names = [] then none
  else if pattern ∈ names then some pattern
  else
    let ms := names.filter (fun name => substrB pattern name)
    if ms.length = 1 then ms.head? else none

/-- Which branch of `resolve_container_name` fires — each constructor
corresponds to one distinct logger call of source lines 134-153. -/
inductive ResolveReport where
  | noRunning
  | exactMatch
  | uniqueSubstring
  | notFound
  | ambiguous
deriving DecidableEq

/-- The log branch taken by `resolve_container_name` (source lines
132-154), in particular the ambiguous branch of lines 151-154. -/
def resolve_report (names : List Str) (pattern : Str) : ResolveReport :=
  if names = [] then ResolveReport.noRunning
  else if pattern ∈ names then ResolveReport.exactMatch
  else
    let ms := names.filter (fun name => substrB pattern name)
    if ms.length = 1 then ResolveReport.uniqueSubstring
    else if ms.length = 0 then ResolveReport.notFound
    else ResolveReport.ambiguous

/-- Source lines 110-154 run against the environment: issue `docker ps`
(the container-listing step), then resolve over the stripped names; a
subprocess exception yields `none`. -/
def resolve_container_name_run (env : DockerEnv) (pattern : Str) :
    Option Str × List DockerCmd :=
  match env.psOutput with
  | none => (none, [DockerCmd.ps])
  | some raw => (resolve_container_name (ps_names raw) pattern, [DockerCmd.ps])

/-- Source lines 157-185, `restart_via_docker`: short-circuit to false
when the docker binary is missing (lines 158-160, before any listing),
otherwise resolve and, if a (truthy) name was resolved, issue
`docker restart` and report its exit status. -/
def restart_via_docker (env : DockerEnv) (container_pattern : Str) :
    Bool × List DockerCmd :=
  if env.dockerAvailable = false then (false, [])
  else
    match resolve_container_name_run env container_pattern with
    | (none, cmds) => (false, cmds)
    | (some name, cmds) =>
      if name = [] then (false, cmds)
      else (env.restartExitOk name, cmds ++ [DockerCmd.restart name])

/-- Overall outcome of one orchestrator run. -/
inductive RemOutcome where
  | truenasSuccess
  | dockerSuccess
  | failure
deriving DecidableEq

/-- Observable actions of one orchestrator run (source lines 190-204):
the API existence check, the API restart call, the docker commands of
the runtime tier, and the single terminal error log of line 204. -/
inductive OrchAction where
  | apiExistsCheck
  | apiRestart
  | docker (c : DockerCmd)
  | terminalError
deriving DecidableEq

/-- Source lines 190-204, `handle_printer_event`: when an app name is
configured and the API reports it exists, try the API restart and stop
on success; otherwise (or on API-restart failure) try the docker tier;
when that also fails, log the single terminal error. -/
def handle_printer_event (api : ApiEnv) (denv : DockerEnv)
    (appName container : Str) : RemOutcome × List OrchAction :=
  let dockerRun := restart_via_docker denv container
  let dockerActs := dockerRun.2.map OrchAction.docker
  let dockerPart : RemOutcome × List OrchAction :=
    if dockerRun.1 then (RemOutcome.dockerSuccess, dockerActs)
    else (RemOutcome.failure, dockerActs ++ [OrchAction.terminalError])
  if appName ≠ [] then
    if truenas_app_exists api appName then
      if restart_via_truenas api appName then
        (RemOutcome.truenasSuccess, [OrchAction.apiExistsCheck, OrchAction.apiRestart])
      else
        (dockerPart.1, OrchAction.apiExistsCheck :: OrchAction.apiRestart :: dockerPart.2)
    else (dockerPart.1, OrchAction.apiExistsCheck :: dockerPart.2)
  else dockerPart

/-- C1: for every current time, stored last-trigger time and cooldown,
the debounce gate accepts iff `now - lastTrigger > cooldown` holds with
strict inequality; in particular a match arriving when `now - lastTrigger`
equals the cooldown exactly is suppressed — the follower-loop iteration
performs no remediation action for that line. -/
theorem debounce_strict_iff (tokens : List Str) (cooldown lastTrigger now : ℚ)
    (rawLine : Str) :
    (shouldTrigger now lastTrigger cooldown = true ↔ now - lastTrigger > cooldown) ∧
    (now - lastTrigger = cooldown →
      Action.remediate ∉ (processLine tokens cooldown lastTrigger now rawLine).2) := by
  constructor
  · simp [shouldTrigger]
  · intro heq
    have hgate : shouldTrigger now lastTrigger cooldown = false := by
      simp [shouldTrigger, heq]
    rw [processLine]
    by_cases h1 : pyStrip rawLine = []
    · simp [h1]
    · cases h2 : line_matches_printer_event tokens (pyStrip rawLine)
      · simp [h1, h2]
      · simp [h1, h2, hgate]

/-- C1 witness: with cooldown 10, last trigger at 0 and a matching line
arriving exactly at time 10, no remediation action occurs. -/
theorem debounce_strict_iff_witness :
    Action.remediate ∉ (processLine ["usblp".toList] 10 0 10 "usblp attached".toList).2 :=
  (debounce_strict_iff ["usblp".toList] 10 0 10 "usblp attached".toList).2 (by norm_num)

/-- C2 counterexample: on an accepted matching line the follower loop runs
`handle_printer_event` first and executes the stored-timestamp assignment
only afterwards (source lines 256-257), so no update action precedes the
remediation action in the iteration trace. -/
theorem update_order_counterexample :
    Action.remediate ∈ (processLine ["usblp".toList] 10 0 20 "usblp attached".toList).2 ∧
    updateBeforeRemediate
      (processLine ["usblp".toList] 10 0 20 "usblp attached".toList).2 = false := by
  have h1 : pyStrip "usblp attached".toList = "usblp attached".toList := by decide
  have h2 : line_matches_printer_event ["usblp".toList] "usblp attached".toList = true := by
    decide
  have h3 : shouldTrigger 20 0 10 = true := by norm_num [shouldTrigger]
  have h4 : "usblp attached".toList ≠ ([] : Str) := by decide
  have htrace : processLine ["usblp".toList] 10 0 20 "usblp attached".toList =
      (20, [Action.logMatch "usblp attached".toList, Action.remediate,
            Action.updateLast 20]) := by
    rw [processLine]
    simp only [h1, h2, h3, h4, if_true, if_false]
  rw [htrace]
  exact ⟨by decide, by decide⟩

/-- C2 amended: on every accepted matching line the stored timestamp is
set to the acceptance instant `now`, but the assignment executes after
the synchronous remediation call returns, not before it; because the
loop is single-threaded, any line processed afterwards — including one
that arrived while a slow remediation was in progress — is compared
against the already-advanced acceptance-instant timestamp and is
suppressed whenever it falls within the cooldown window. -/
theorem update_records_acceptance_instant (tokens : List Str)
    (cooldown lastTrigger now : ℚ) (rawLine : Str)
    (hacc : Action.remediate ∈ (processLine tokens cooldown lastTrigger now rawLine).2) :
    (processLine tokens cooldown lastTrigger now rawLine).1 = now ∧
    (processLine tokens cooldown lastTrigger now rawLine).2 =
      [Action.logMatch (pyStrip rawLine), Action.remediate, Action.updateLast now] ∧
    ∀ (now2 : ℚ) (rawLine2 : Str), now2 - now ≤ cooldown →
      Action.remediate ∉ (processLine tokens cooldown now now2 rawLine2).2 := by
  by_cases h1 : pyStrip rawLine = []
  · rw [processLine] at hacc
    simp [h1] at hacc
  · cases h2 : line_matches_printer_event tokens (pyStrip rawLine)
    · exfalso
      rw [processLine] at hacc
      simp [h1, h2] at hacc
    · cases h3 : shouldTrigger now lastTrigger cooldown
      · exfalso
        rw [processLine] at hacc
        simp [h1, h2, h3] at hacc
      · refine ⟨?_, ?_, ?_⟩
        · rw [processLine]
          simp [h1, h2, h3]
        · rw [processLine]
          simp [h1, h2, h3]
        · intro now2 rawLine2 hle
          have hgate : shouldTrigger now2 now cooldown = false := by
            simp only [shouldTrigger, decide_eq_false_iff_not]
            intro hcon
            exact absurd hle (by exact not_le.mpr (by exact lt_of_lt_of_le hcon le_rfl))
          rw [processLine]
          by_cases g1 : pyStrip rawLine2 = []
          · simp [g1]
          · cases g2 : line_matches_printer_event tokens (pyStrip rawLine2)
            · simp [g1, g2]
            · simp [g1, g2, hgate]

/-- C2 amended witness: an accepted match at time 20 (cooldown 10, last
trigger 0) stores 20, and a second matching line at time 25 is then
suppressed. -/
theorem update_records_acceptance_instant_witness :
    (processLine ["usblp".toList] 10 0 20 "usblp attached".toList).1 = 20 ∧
    Action.remediate ∉ (processLine ["usblp".toList] 10 20 25 "usblp again".toList).2 := by
  have h1 : pyStrip "usblp attached".toList = "usblp attached".toList := by decide
  have h2 : line_matches_printer_event ["usblp".toList] "usblp attached".toList = true := by
    decide
  have h3 : shouldTrigger 20 0 10 = true := by norm_num [shouldTrigger]
  have h4 : "usblp attached".toList ≠ ([] : Str) := by decide
  have hacc : Action.remediate ∈
      (processLine ["usblp".toList] 10 0 20 "usblp attached".toList).2 := by
    have htrace : processLine ["usblp".toList] 10 0 20 "usblp attached".toList =
        (20, [Action.logMatch "usblp attached".toList, Action.remediate,
              Action.updateLast 20]) := by
      rw [processLine]
      simp only [h1, h2, h3, h4, if_true, if_false]
    rw [htrace]
    decide
  have h := update_records_acceptance_instant ["usblp".toList] 10 0 20
    "usblp attached".toList hacc
  exact ⟨h.1, h.2.2 25 "usblp again".toList (by norm_num)⟩

/-- C3: the event classifier returns true iff some token of the
configured set occurs as a contiguous (case-sensitive) substring of the
line, and returns false for every line when the token set is empty; the
embedded classifier is a pure function of its two arguments. -/
theorem classifier_matches_iff (tokens : List Str) (line : Str) :
    (line_matches_printer_event tokens line = true ↔ ∃ t ∈ tokens, t <:+: line) ∧
    line_matches_printer_event [] line = false := by
  constructor
  · simp [line_matches_printer_event, substrB, List.any_eq_true]
  · rfl

/-- C4: whenever the pattern equals some running container name exactly,
resolution returns that name, regardless of how many other running names
contain the pattern as a substring. -/
theorem resolve_exact_match_wins (names : List Str) (pattern : Str)
    (hmem : pattern ∈ names) :
    resolve_container_name names pattern = some pattern := by
  have hne : ¬ names = [] := by
    intro h
    rw [h] at hmem
    exact (List.not_mem_nil pattern) hmem
  rw [resolve_container_name]
  simp [hne, hmem]

/-- C4 witness: with running names p910nd and p910nd-backup, pattern
p910nd resolves to p910nd itself and is not ambiguous. -/
theorem resolve_exact_match_wins_witness :
    resolve_container_name ["p910nd".toList, "p910nd-backup".toList] "p910nd".toList
      = some "p910nd".toList :=
  resolve_exact_match_wins _ _ (by decide)

/-- C5: when no running name equals the pattern exactly and at least two
running names contain it as a substring, resolution takes the ambiguous
log branch, chooses no name, and the runtime tier issues no docker
restart command for any container. -/
theorem resolve_ambiguous_no_restart (env : DockerEnv) (raw : List Str) (pattern : Str)
    (hps : env.psOutput = some raw)
    (hnoexact : pattern ∉ ps_names raw)
    (hmulti : 2 ≤ ((ps_names raw).filter (fun name => substrB pattern name)).length) :
    resolve_report (ps_names raw) pattern = ResolveReport.ambiguous ∧
    resolve_container_name (ps_names raw) pattern = none ∧
    ∀ name, DockerCmd.restart name ∉ (restart_via_docker env pattern).2 := by
  have hne : ¬ ps_names raw = [] := by
    intro h
    rw [h] at hmulti
    simp at hmulti
  have hlen1 : ¬ ((ps_names raw).filter (fun name => substrB pattern name)).length = 1 := by
    omega
  have hlen0 : ¬ ((ps_names raw).filter (fun name => substrB pattern name)).length = 0 := by
    omega
  have hres : resolve_container_name (ps_names raw) pattern = none := by
    rw [resolve_container_name]
    simp [hne, hnoexact, hlen1]
  refine ⟨?_, hres, ?_⟩
  · rw [resolve_report]
    simp [hne, hnoexact, hlen1, hlen0]
  · intro name
    rw [restart_via_docker]
    cases hav : env.dockerAvailable
    · simp
    · simp only [Bool.true_eq_false, if_false, resolve_container_name_run, hps, hres]
      simp

/-- C5 witness: running names foo-p910nd and bar-p910nd with pattern
p910nd give the ambiguous branch and no restart command. -/
theorem resolve_ambiguous_no_restart_witness :
    resolve_report (ps_names ["foo-p910nd".toList, "bar-p910nd".toList]) "p910nd".toList
        = ResolveReport.ambiguous ∧
    resolve_container_name (ps_names ["foo-p910nd".toList, "bar-p910nd".toList])
        "p910nd".toList = none ∧
    DockerCmd.restart "foo-p910nd".toList ∉
      (restart_via_docker
        ⟨true, some ["foo-p910nd".toList, "bar-p910nd".toList], fun _ => true⟩
        "p910nd".toList).2 := by
  have h := resolve_ambiguous_no_restart
    ⟨true, some ["foo-p910nd".toList, "bar-p910nd".toList], fun _ => true⟩
    ["foo-p910nd".toList, "bar-p910nd".toList] "p910nd".toList rfl (by decide) (by decide)
  exact ⟨h.1, h.2.1, h.2.2 ("foo-p910nd".toList)⟩

/-- C7: when the docker binary is unavailable the runtime tier returns
false immediately and issues no command at all — in particular the
container-listing step (`docker ps`) is never invoked. -/
theorem docker_unavailable_short_circuit (env : DockerEnv) (pattern : Str)
    (h : env.dockerAvailable = false) :
    restart_via_docker env pattern = (false, []) ∧
    DockerCmd.ps ∉ (restart_via_docker env pattern).2 := by
  have heq : restart_via_docker env pattern = (false, []) := by
    rw [restart_via_docker]
    simp [h]
  exact ⟨heq, by rw [heq]; simp⟩

/-- C7 witness: a concrete environment without the docker binary. -/
theorem docker_unavailable_short_circuit_witness :
    restart_via_docker ⟨false, some ["p910nd".toList], fun _ => true⟩ "p910nd".toList
        = (false, []) ∧
    DockerCmd.ps ∉
      (restart_via_docker ⟨false, some ["p910nd".toList], fun _ => true⟩
        "p910nd".toList).2 :=
  docker_unavailable_short_circuit ⟨false, some ["p910nd".toList], fun _ => true⟩
    "p910nd".toList rfl

/-- C10: every name returned by resolution is a member of the
running-names list, and with an empty running-names list resolution
returns no name for any pattern, the empty pattern included. -/
theorem resolve_returns_member (names : List Str) (pattern : Str) :
    (∀ n, resolve_container_name names pattern = some n → n ∈ names) ∧
    resolve_container_name [] pattern = none := by
  constructor
  · intro n hn
    rw [resolve_container_name] at hn
    by_cases hne : names = []
    · rw [if_pos hne] at hn
      exact absurd hn (by simp)
    · rw [if_neg hne] at hn
      by_cases hex : pattern ∈ names
      · rw [if_pos hex] at hn
        have : pattern = n := by
          injection hn
        rw [← this]
        exact hex
      · rw [if_neg hex] at hn
        by_cases hl : (names.filter (fun name => substrB pattern name)).length = 1
        · rw [if_pos hl] at hn
          have hmemf : n ∈ names.filter (fun name => substrB pattern name) := by
            cases hF : names.filter (fun name => substrB pattern name) with
            | nil => rw [hF] at hn; exact absurd hn (by simp)
            | cons a t =>
              rw [hF] at hn
              have : a = n := by
                simp at hn
                exact hn
              rw [this]
              exact List.mem_cons_self n t
          exact (List.mem_filter.mp hmemf).1
        · rw [if_neg hl] at hn
          exact absurd hn (by simp)
  · rfl

/-- C10 witness: a singleton running list resolves to a member, and the
empty running list with the empty pattern resolves to nothing. -/
theorem resolve_returns_member_witness :
    "p910nd".toList ∈ ["p910nd".toList] ∧
    resolve_container_name [] ([] : Str) = none := by
  constructor
  · exact (resolve_returns_member ["p910nd".toList] "p910nd".toList).1
      ("p910nd".toList) (by decide)
  · exact (resolve_returns_member [] ([] : Str)).2

/-- C6: when the API tier reports the configured app exists but the API
restart call fails, the orchestrator still runs the docker tier: its
commands appear in the trace after the two API actions, the overall
outcome is success exactly when the docker restart succeeds, and the
terminal error is logged only when it fails. -/
theorem api_restart_failure_falls_back (api : ApiEnv) (denv : DockerEnv)
    (appName container : Str)
    (hname : appName ≠ [])
    (hex : truenas_app_exists api appName = true)
    (hfail : restart_via_truenas api appName = false) :
    handle_printer_event api denv appName container =
      (if (restart_via_docker denv container).1 then RemOutcome.dockerSuccess
        else RemOutcome.failure,
       OrchAction.apiExistsCheck :: OrchAction.apiRestart ::
         ((restart_via_docker denv container).2.map OrchAction.docker ++
          if (restart_via_docker denv container).1 then []
          else [OrchAction.terminalError])) := by
  rw [handle_printer_event]
  simp only [hname, hex, hfail, if_true, if_false, ite_true, ite_false, ne_eq,
    not_false_eq_true]
  cases hd : (restart_via_docker denv container).1
  · simp [hd]
  · simp [hd]

/-- C6 witness: API configured and app existing, API restart failing,
docker tier succeeding — the event is remediated via docker. -/
theorem api_restart_failure_falls_back_witness :
    handle_printer_event ⟨"u".toList, "k".toList, some ["p910nd".toList], false⟩
      ⟨true, some ["p910nd".toList], fun _ => true⟩ "p910nd".toList "p910nd".toList
      = (RemOutcome.dockerSuccess,
         [OrchAction.apiExistsCheck, OrchAction.apiRestart,
          OrchAction.docker DockerCmd.ps,
          OrchAction.docker (DockerCmd.restart "p910nd".toList)]) := by
  have h := api_restart_failure_falls_back
    ⟨"u".toList, "k".toList, some ["p910nd".toList], false⟩
    ⟨true, some ["p910nd".toList], fun _ => true⟩
    "p910nd".toList "p910nd".toList (by decide) (by decide) (by decide)
  rw [h]
  have hd : restart_via_docker ⟨true, some ["p910nd".toList], fun _ => true⟩
      "p910nd".toList = (true, [DockerCmd.ps, DockerCmd.restart "p910nd".toList]) := by
    rw [restart_via_docker]
    decide
  rw [hd]
  simp

/-- C8: whenever the API tier does not succeed (unconfigured app name,
app not reported to exist, or failed API restart) and the docker tier
fails as well, the orchestrator returns normally with the failure
outcome and its trace carries exactly one terminal error log; the
embedded orchestrator is total, so no exception escapes to the follower
loop. -/
theorem total_failure_reported (api : ApiEnv) (denv : DockerEnv)
    (appName container : Str)
    (hapi : appName = [] ∨ truenas_app_exists api appName = false ∨
            restart_via_truenas api appName = false)
    (hdocker : (restart_via_docker denv container).1 = false) :
    (handle_printer_event api denv appName container).1 = RemOutcome.failure ∧
    ((handle_printer_event api denv appName container).2.count
      OrchAction.terminalError) = 1 := by
  have hmap : (((restart_via_docker denv container).2.map OrchAction.docker).count
      OrchAction.terminalError) = 0 := by
    rw [List.count_eq_zero]
    simp
  by_cases hname : appName = []
  · rw [handle_printer_event]
    simp only [hname, ne_eq, not_true_eq_false, if_false, hdocker, ite_false]
    constructor
    · simp
    · simp [List.count_append, hmap]
  · cases hex : truenas_app_exists api appName
    · rw [handle_printer_event]
      simp only [hname, hex, ne_eq, not_false_eq_true, if_true, if_false, hdocker,
        ite_false, Bool.false_eq_true]
      constructor
      · simp
      · simp [List.count_cons, List.count_append, hmap]
    · cases hfl : restart_via_truenas api appName
      · rw [handle_printer_event]
        simp only [hname, hex, hfl, ne_eq, not_false_eq_true, if_true, if_false,
          hdocker, ite_false, ite_true, Bool.false_eq_true]
        constructor
        · simp
        · simp [List.count_cons, List.count_append, hmap]
      · exfalso
        rcases hapi with h | h | h
        · exact hname h
        · rw [hex] at h
          exact Bool.true_eq_false ▸ h ▸ rfl
        · rw [hfl] at h
          exact Bool.true_eq_false ▸ h ▸ rfl

/-- C8 witness: API tier unconfigured and docker binary missing — the
orchestrator reports failure with a single terminal error. -/
theorem total_failure_reported_witness :
    (handle_printer_event ⟨[], [], none, false⟩ ⟨false, none, fun _ => false⟩
      "p910nd".toList "p910nd".toList).1 = RemOutcome.failure ∧
    ((handle_printer_event ⟨[], [], none, false⟩ ⟨false, none, fun _ => false⟩
      "p910nd".toList "p910nd".toList).2.count OrchAction.terminalError) = 1 := by
  refine total_failure_reported ⟨[], [], none, false⟩ ⟨false, none, fun _ => false⟩
    "p910nd".toList "p910nd".toList (Or.inr (Or.inl (by decide))) ?_
  rw [restart_via_docker]
  decide

/-- Auxiliary: a non-empty `dropWhile` result contains an element on
which the predicate fails. -/
theorem dropWhile_mem_not (p : Char → Bool) :
    ∀ l : List Char, l.dropWhile p ≠ [] → ∃ c ∈ l.dropWhile p, p c = false := by
  intro l
  induction l with
  | nil => simp [List.dropWhile]
  | cons a as ih =>
    cases hp : p a with
    | true =>
      rw [List.dropWhile_cons, if_pos hp]
      exact ih
    | false =>
      rw [List.dropWhile_cons, if_neg (by simp [hp])]
      intro _
      exact ⟨a, List.mem_cons_self a _, hp⟩

/-- C9: every token of the derived match-token list is non-empty and not
whitespace-only — the list is obtained by splitting the configured
string on commas, stripping each part, and discarding the parts that
become empty; the list is computed once at module load and the same
value is passed to every classifier call. -/
theorem match_tokens_invariant (configured : Str) (t : Str)
    (hmem : t ∈ USB_EVENT_MATCH_ANY_OF configured) :
    t ≠ [] ∧ ∃ c ∈ t, c.isWhitespace = false := by
  rw [USB_EVENT_MATCH_ANY_OF] at hmem
  have h2 := List.mem_filter.mp hmem
  have hne : t ≠ [] := by
    have h3 := h2.2
    simpa using h3
  refine ⟨hne, ?_⟩
  obtain ⟨part, hpart, hstrip⟩ := List.mem_map.mp h2.1
  rw [← hstrip] at hne ⊢
  rw [pyStrip] at hne ⊢
  have hne2 : (part.dropWhile Char.isWhitespace).reverse.dropWhile Char.isWhitespace
      ≠ [] := by
    intro h
    rw [h] at hne
    exact hne rfl
  obtain ⟨c, hc, hcw⟩ := dropWhile_mem_not Char.isWhitespace
    (part.dropWhile Char.isWhitespace).reverse hne2
  exact ⟨c, by rw [List.mem_reverse]; exact hc, hcw⟩

/-- C9 witness: the default configured string yields the token usblp,
which is non-empty and contains a non-whitespace character. -/
theorem match_tokens_invariant_witness :
    "usblp".toList ≠ ([] : Str) ∧
    ∃ c ∈ "usblp".toList, c.isWhitespace = false :=
  match_tokens_invariant "usblp,USB Bidirectional printer".toList "usblp".toList
    (by decide)

end UsbPrinterWatcher
